import Mathlib

/-!
Verification of the `android_world` environment-interface core
(`android_world/env/json_action.py` and `android_world/env/interface.py`).

The Python source is shallowly embedded: pure functions become Lean
functions, the mutable session object (`AsyncAndroidEnv`) becomes explicit
state passing over an `EnvState` record, device/adb side effects are
recorded as explicit `Effect` values, and Python exceptions are modelled
with `Except`.  Python `float` durations are modelled by exact rationals.
-/

namespace AndroidWorldEnv

/-! ### Action model (`json_action.py`) -/

/-- `ANSWER = 'answer'` from `json_action.py`. -/
def ANSWER : String := "answer"

/-- `CLICK = 'click'` from `json_action.py`. -/
def CLICK : String := "click"

/-- `DOUBLE_TAP = 'double_tap'` from `json_action.py`. -/
def DOUBLE_TAP : String := "double_tap"

/-- `INPUT_TEXT = 'input_text'` from `json_action.py`. -/
def INPUT_TEXT : String := "input_text"

/-- `KEYBOARD_ENTER = 'keyboard_enter'` from `json_action.py`. -/
def KEYBOARD_ENTER : String := "keyboard_enter"

/-- `LONG_PRESS = 'long_press'` from `json_action.py`. -/
def LONG_PRESS : String := "long_press"

/-- `NAVIGATE_BACK = 'navigate_back'` from `json_action.py`. -/
def NAVIGATE_BACK : String := "navigate_back"

/-- `NAVIGATE_HOME = 'navigate_home'` from `json_action.py`. -/
def NAVIGATE_HOME : String := "navigate_home"

/-- `OPEN_APP = 'open_app'` from `json_action.py`. -/
def OPEN_APP : String := "open_app"

/-- `SCROLL = 'scroll'` from `json_action.py`. -/
def SCROLL : String := "scroll"

/-- `STATUS = 'status'` from `json_action.py`. -/
def STATUS : String := "status"

/-- `SWIPE = 'swipe'` from `json_action.py`. -/
def SWIPE : String := "swipe"

/-- `UNKNOWN = 'unknown'` from `json_action.py`. -/
def UNKNOWN : String := "unknown"

/-- `WAIT = 'wait'` from `json_action.py`. -/
def WAIT : String := "wait"

/-- `_ACTION_TYPES` from `json_action.py`, in source order.  It is a plain
tuple declared next to the dataclass; nothing in `json_action.py` consults
it during construction. -/
def ACTION_TYPES : List String :=
  [CLICK, DOUBLE_TAP, SCROLL, SWIPE, INPUT_TEXT, NAVIGATE_HOME, NAVIGATE_BACK,
   KEYBOARD_ENTER, OPEN_APP, STATUS, WAIT, LONG_PRESS, ANSWER, UNKNOWN]

/-- The `JSONAction` dataclass of `json_action.py`.  Each field is optional
with default `None`; `index` is `Optional[str | int]`.  Note that the class
declares *no* `orientation` field (its docstring mentions one, but the
dataclass body does not define it), which matters for `_compare_actions`
below. -/
structure JSONAction where
  action_type : Option String := none
  index : Option (String ⊕ Int) := none
  x : Option Int := none
  y : Option Int := none
  text : Option String := none
  direction : Option String := none
  goal_status : Option String := none
  app_name : Option String := none
  activity_nickname : Option String := none
deriving DecidableEq, Repr

/-- The Python `AttributeError` raised by `_compare_actions` when it reads
`a.orientation` on a `JSONAction`, which declares no such field. -/
def orientationError : String :=
  "AttributeError: JSONAction object has no attribute orientation"

/-- Python `str.lower()` (ASCII case folding), computed characterwise on
the string's character list. -/
def strLower (s : String) : String := String.mk (s.data.map Char.toLower)

/-- The two-branch optional comparison used by `_compare_actions` for
`app_name` and `text`: if both are non-`None`, compare lowercased,
otherwise compare directly (`None == None` is true, `None == str` false). -/
def optLowerEq : Option String → Option String → Bool
  | some u, some v => strLower u == strLower v
  | u, v => u == v

/-- `_compare_actions` from `json_action.py`.  The final conjunct of the
source, `a.orientation == b.orientation`, reads an attribute the dataclass
never defines; by Python short-circuit evaluation it is reached exactly
when every earlier conjunct is true, and then raises `AttributeError`.
So the function returns `False` when some compared field mismatches and
raises otherwise; it never returns `True`.  `activity_nickname`, though a
declared field, is never compared. -/
def compare_actions (a b : JSONAction) : Except String Bool :=
  let app_name_match := optLowerEq a.app_name b.app_name
  let text_match := optLowerEq a.text b.text
  if app_name_match && text_match
      && decide (a.action_type = b.action_type) && decide (a.index = b.index)
      && decide (a.x = b.x) && decide (a.y = b.y)
      && decide (a.direction = b.direction) && decide (a.goal_status = b.goal_status)
  then Except.error orientationError
  else Except.ok false

/-- `JSONAction.__eq__`: on another `JSONAction` it delegates to
`_compare_actions` (the non-`JSONAction` branch returning `False` is not
modelled since only actions are compared here). -/
def JSONAction.eq (a b : JSONAction) : Except String Bool :=
  compare_actions a b

/-! ### Serialization (`JSONAction.json_str`) and deserialization -/

/-- A JSON scalar as it occurs in a serialized action: the string-valued
fields and the integer-valued fields (`index` may be either). -/
inductive JVal where
  | jstr (s : String)
  | jint (n : Int)
deriving DecidableEq, Repr

/-- Helper used to list one optional field of the `non_null` dict. -/
def optEntry (key : String) : Option JVal → List (String × JVal)
  | none => []
  | some v => [(key, v)]

/-- Encoding of the `index` field (`Optional[str | int]`) as a JSON value. -/
def indexVal : String ⊕ Int → JVal
  | Sum.inl s => JVal.jstr s
  | Sum.inr n => JVal.jint n

/-- The content of the JSON object emitted by `JSONAction.json_str`: the
`non_null` dict, i.e. the non-`None` fields in `__dict__` (declaration)
order.  `json.dumps(non_null, separators=(',', ':'))` renders exactly this
ordered key/value list; the object content is what the round-trip law is
about, so the embedding works at this level. -/
def non_null (a : JSONAction) : List (String × JVal) :=
  optEntry "action_type" (a.action_type.map JVal.jstr)
    ++ optEntry "index" (a.index.map indexVal)
    ++ optEntry "x" (a.x.map JVal.jint)
    ++ optEntry "y" (a.y.map JVal.jint)
    ++ optEntry "text" (a.text.map JVal.jstr)
    ++ optEntry "direction" (a.direction.map JVal.jstr)
    ++ optEntry "goal_status" (a.goal_status.map JVal.jstr)
    ++ optEntry "app_name" (a.app_name.map JVal.jstr)
    ++ optEntry "activity_nickname" (a.activity_nickname.map JVal.jstr)

/-- One keyword argument of `JSONAction(**parsed)`: set the named field,
failing (as the dataclass `__init__` does with `TypeError`) on an unknown
key, and failing on a value whose JSON type does not fit the field's
declared type. -/
def setField (a : JSONAction) : String × JVal → Option JSONAction
  | ("action_type", JVal.jstr s) => some { a with action_type := some s }
  | ("index", JVal.jstr s) => some { a with index := some (Sum.inl s) }
  | ("index", JVal.jint n) => some { a with index := some (Sum.inr n) }
  | ("x", JVal.jint n) => some { a with x := some n }
  | ("y", JVal.jint n) => some { a with y := some n }
  | ("text", JVal.jstr s) => some { a with text := some s }
  | ("direction", JVal.jstr s) => some { a with direction := some s }
  | ("goal_status", JVal.jstr s) => some { a with goal_status := some s }
  | ("app_name", JVal.jstr s) => some { a with app_name := some s }
  | ("activity_nickname", JVal.jstr s) => some { a with activity_nickname := some s }
  | _ => none

/-- Modelled from the spec: no deserializer exists under `src/`; the spec's
round-trip law presumes parsing the serialized JSON back into a dict and
constructing `JSONAction(**parsed)` (the construction pattern shown in the
class docstring).  The parsed JSON object is represented by its ordered
key/value list; construction starts from the all-`None` dataclass defaults
and sets each named field in turn. -/
def deserialize (kvs : List (String × JVal)) : Option JSONAction :=
  kvs.foldlM setField {}

/-! ### Environment interface (`interface.py`) -/

/-- The `State` dataclass of `interface.py`: one observation bundle.
`pixels` and `forest` are opaque payloads (the core never inspects them;
only `ui_elements` is ever compared), so they are modelled by opaque
numeric identifiers; `ui_elements` is the processed element list, over an
arbitrary element type `ε` with decidable equality (Python compares the
lists with `==`). -/
structure State (ε : Type) where
  pixels : Nat
  forest : Nat
  ui_elements : List ε
deriving DecidableEq, Repr

/-- The external device collaborator (`base_env` plus the adb helpers):
`stepObs n` is the observation produced by the `n`-th call to
`base_env.step(no_op)` (what `_get_state` processes), `resetObs` is the
observation produced by `base_env.reset()`, and `screenSize` is the
logical screen size reported by adb. -/
structure Device (ε : Type) where
  stepObs : Nat → State ε
  resetObs : State ε
  screenSize : Nat × Nat

/-- The mutable state of an `AsyncAndroidEnv` session:
`interaction_cache` (initialised to `''`; `execute_action` assigns
`action.text` to it, so at runtime it can become `None` — hence
`Option String`), the private `_prior_state` stabilization baseline, and
`step_count`, the number of `base_env.step` calls issued so far (the index
into the device observation stream). -/
structure EnvState (ε : Type) where
  interaction_cache : Option String
  prior_state : Option (State ε)
  step_count : Nat
deriving DecidableEq, Repr

/-- The session state right after `__init__`: empty cache, no baseline. -/
def initialEnv (ε : Type) : EnvState ε :=
  { interaction_cache := some "", prior_state := none, step_count := 0 }

/-- Externally visible side effects of the session: the home-button press
issued by `reset(go_home=True)`, the overlay broadcast issued by
`display_message`, and the call forwarded to
`actuation.execute_adb_action(action, ui_elements, logical_screen_size, env)`. -/
inductive Effect (ε : Type) where
  | pressHome
  | displayMessage (message : String) (header : String)
  | actuate (action : JSONAction) (ui_elements : List ε) (screen : Nat × Nat)
deriving DecidableEq

variable {ε : Type} [DecidableEq ε]

/-- `AsyncAndroidEnv._get_state`: issue one no-op step and package the
observation; returns the fresh state and the advanced step counter. -/
def get_state_raw (d : Device ε) (cnt : Nat) : State ε × Nat :=
  (d.stepObs cnt, cnt + 1)

/-- `AsyncAndroidEnv.reset`: optionally press home, clear the interaction
cache to `''`, and return the processed `base_env.reset()` observation.
Note the source does *not* touch `_prior_state` or issue a no-op step. -/
def reset (d : Device ε) (go_home : Bool) (env : EnvState ε) :
    State ε × EnvState ε × List (Effect ε) :=
  (d.resetObs,
   { env with interaction_cache := some "" },
   if go_home then [Effect.pressHome] else [])

/-- `AsyncAndroidEnv.execute_action`: an `answer` action only writes
`action.text` into the interaction cache and, when the text is truthy
(non-`None` and non-empty), emits one `display_message` broadcast; any
other action fetches one fresh non-stabilized state and forwards it to the
actuation collaborator. -/
def execute_action (d : Device ε) (a : JSONAction) (env : EnvState ε) :
    EnvState ε × List (Effect ε) :=
  if a.action_type == some ANSWER then
    ({ env with interaction_cache := a.text },
     match a.text with
     | some t => if t == "" then [] else [Effect.displayMessage t "Agent answered:"]
     | none => [])
  else
    let st := d.stepObs env.step_count
    ({ env with step_count := env.step_count + 1 },
     [Effect.actuate a st.ui_elements d.screenSize])

/-- The `while` loop of `AsyncAndroidEnv._get_stable_state`, with the
mutable locals (`stable_checks`, `elapsed_time`, `self._prior_state`,
`current_state`, and the step counter) passed explicitly.  The loop runs
while `stable_checks < stability_threshold and elapsed_time < timeout`;
a match increments `stable_checks` and breaks at the threshold, a mismatch
resets the count and re-baselines on `current`; otherwise it sleeps,
accumulates `elapsed_time`, and acquires a new state.  It returns
`(current_state, final _prior_state, final step counter)`.  Durations are
exact rationals; termination needs `0 < sleep_duration` (with a
non-positive sleep the Python loop can spin forever). -/
def stabilizeLoop (d : Device ε) (stability_threshold : Nat)
    (sleep_duration timeout : ℚ) (hs : 0 < sleep_duration)
    (stable_checks : Nat) (elapsed_time : ℚ)
    (prior current : State ε) (cnt : Nat) : State ε × State ε × Nat :=
  if h : stable_checks < stability_threshold ∧ elapsed_time < timeout then
    if prior.ui_elements = current.ui_elements then
      if stable_checks + 1 = stability_threshold then
        (current, prior, cnt)
      else
        stabilizeLoop d stability_threshold sleep_duration timeout hs
          (stable_checks + 1) (elapsed_time + sleep_duration)
          prior (d.stepObs cnt) (cnt + 1)
    else
      stabilizeLoop d stability_threshold sleep_duration timeout hs
        0 (elapsed_time + sleep_duration)
        current (d.stepObs cnt) (cnt + 1)
  else
    (current, prior, cnt)
termination_by (⌈(timeout - elapsed_time) / sleep_duration⌉).toNat
decreasing_by
  all_goals
    have hposq : 0 < (timeout - elapsed_time) / sleep_duration := by
      exact div_pos (sub_pos.mpr h.2) hs
    have hone : 1 ≤ ⌈(timeout - elapsed_time) / sleep_duration⌉ := by
      exact Int.ceil_pos.mpr hposq
    have hstep : ⌈(timeout - (elapsed_time + sleep_duration)) / sleep_duration⌉
        = ⌈(timeout - elapsed_time) / sleep_duration⌉ - 1 := by
      rw [show timeout - (elapsed_time + sleep_duration)
            = (timeout - elapsed_time) - sleep_duration by ring,
          sub_div, div_self (ne_of_gt hs), Int.ceil_sub_one]
    omega

/-- Fuel-indexed twin of `stabilizeLoop`, used only to evaluate the loop on
concrete inputs: structurally recursive, with the same body, and agreeing
with `stabilizeLoop` whenever the fuel covers the timeout
(`stabilizeLoop_eq_fuel`). -/
def stabilizeLoopF (d : Device ε) (stability_threshold : Nat)
    (sleep_duration timeout : ℚ) :
    Nat → Nat → ℚ → State ε → State ε → Nat → State ε × State ε × Nat
  | 0, _, _, prior, current, cnt => (current, prior, cnt)
  | fuel + 1, stable_checks, elapsed_time, prior, current, cnt =>
    if stable_checks < stability_threshold ∧ elapsed_time < timeout then
      if prior.ui_elements = current.ui_elements then
        if stable_checks + 1 = stability_threshold then
          (current, prior, cnt)
        else
          stabilizeLoopF d stability_threshold sleep_duration timeout
            fuel (stable_checks + 1) (elapsed_time + sleep_duration)
            prior (d.stepObs cnt) (cnt + 1)
      else
        stabilizeLoopF d stability_threshold sleep_duration timeout
          fuel 0 (elapsed_time + sleep_duration)
          current (d.stepObs cnt) (cnt + 1)
    else
      (current, prior, cnt)

/-- `AsyncAndroidEnv._get_stable_state` (defaults: threshold 3, sleep 0.5,
timeout 6.0).  If no baseline is stored it acquires one; it then acquires a
fresh `current` and runs the polling loop; the session keeps the final
baseline and step counter, and the loop's `current` is returned. -/
def get_stable_state (d : Device ε) (stability_threshold : Nat)
    (sleep_duration timeout : ℚ) (hs : 0 < sleep_duration)
    (env : EnvState ε) : State ε × EnvState ε :=
  match env.prior_state with
  | none =>
      let prior := d.stepObs env.step_count
      let current := d.stepObs (env.step_count + 1)
      let r := stabilizeLoop d stability_threshold sleep_duration timeout hs
        0 0 prior current (env.step_count + 2)
      (r.1, { env with prior_state := some r.2.1, step_count := r.2.2 })
  | some p =>
      let current := d.stepObs env.step_count
      let r := stabilizeLoop d stability_threshold sleep_duration timeout hs
        0 0 p current (env.step_count + 1)
      (r.1, { env with prior_state := some r.2.1, step_count := r.2.2 })

/-- Fuel-indexed twin of `get_stable_state` (same pre-loop acquisitions,
loop replaced by `stabilizeLoopF`); used to evaluate concrete runs. -/
def get_stable_stateF (d : Device ε) (stability_threshold : Nat)
    (sleep_duration timeout : ℚ) (fuel : Nat)
    (env : EnvState ε) : State ε × EnvState ε :=
  match env.prior_state with
  | none =>
      let prior := d.stepObs env.step_count
      let current := d.stepObs (env.step_count + 1)
      let r := stabilizeLoopF d stability_threshold sleep_duration timeout
        fuel 0 0 prior current (env.step_count + 2)
      (r.1, { env with prior_state := some r.2.1, step_count := r.2.2 })
  | some p =>
      let current := d.stepObs env.step_count
      let r := stabilizeLoopF d stability_threshold sleep_duration timeout
        fuel 0 0 p current (env.step_count + 1)
      (r.1, { env with prior_state := some r.2.1, step_count := r.2.2 })

/-! ### Spec-side predicate and concrete fixtures -/

/-- The field-matching rule that `_compare_actions` checks before reaching
the phantom `orientation` attribute, stated spec-style: `app_name` and
`text` compare case-insensitively when both sides are non-null (by
null-equality otherwise), and `action_type`, `index`, `x`, `y`,
`direction`, `goal_status` compare by exact value.  `activity_nickname`
does not appear: the source never compares it. -/
def fieldsMatch (a b : JSONAction) : Prop :=
  optLowerEq a.app_name b.app_name = true ∧ optLowerEq a.text b.text = true
    ∧ a.action_type = b.action_type ∧ a.index = b.index ∧ a.x = b.x ∧ a.y = b.y
    ∧ a.direction = b.direction ∧ a.goal_status = b.goal_status

/-- An `open_app` action targeting Chrome via the app drawer. -/
def aDrawer : JSONAction :=
  { action_type := some OPEN_APP, app_name := some "Chrome",
    activity_nickname := some "app_drawer" }

/-- The same action as `aDrawer` except for `activity_nickname`. -/
def aQuick : JSONAction :=
  { aDrawer with activity_nickname := some "quick_settings" }

/-- `open_app` action with `app_name='Chrome'`. -/
def chromeUpper : JSONAction := { action_type := some OPEN_APP, app_name := some "Chrome" }

/-- `open_app` action with `app_name='chrome'`. -/
def chromeLower : JSONAction := { action_type := some OPEN_APP, app_name := some "chrome" }

/-- `open_app` action with `app_name=None`. -/
def chromeNone : JSONAction := { action_type := some OPEN_APP }

/-- `input_text` action with `text='Hello'`. -/
def textUpper : JSONAction := { action_type := some INPUT_TEXT, text := some "Hello" }

/-- `input_text` action with `text='hello'`. -/
def textLower : JSONAction := { action_type := some INPUT_TEXT, text := some "hello" }

/-- `input_text` action with `text=None`. -/
def textNone : JSONAction := { action_type := some INPUT_TEXT }

/-- A concrete stored stabilization baseline. -/
def S0 : State Nat := { pixels := 77, forest := 77, ui_elements := [100] }

/-- A session mid-run: non-empty interaction cache and a stored baseline. -/
def envWithBaseline : EnvState Nat :=
  { interaction_cache := some "x", prior_state := some S0, step_count := 0 }

/-- Mock device whose every step observation shows elements `[100]`. -/
def devConst : Device Nat :=
  { stepObs := fun n => { pixels := n, forest := n, ui_elements := [100] },
    resetObs := { pixels := 1000, forest := 1000, ui_elements := [100] },
    screenSize := (1080, 2400) }

/-- Mock device for the trace of claim C2: two distinct unstable screens,
then three samples with elements `A = [100]` (indices 2-4), then elements
`B = [200]` from index 5 on. -/
def devThreeA : Device Nat :=
  { stepObs := fun n =>
      { pixels := n, forest := n,
        ui_elements := if n ≤ 1 then [n] else if n ≤ 4 then [100] else [200] },
    resetObs := { pixels := 1000, forest := 1000, ui_elements := [0] },
    screenSize := (1080, 2400) }

/-- Like `devThreeA` but with four consecutive `A = [100]` samples
(indices 2-5) before `B = [200]` appears from index 6 on. -/
def devFourA : Device Nat :=
  { stepObs := fun n =>
      { pixels := n, forest := n,
        ui_elements := if n ≤ 1 then [n] else if n ≤ 5 then [100] else [200] },
    resetObs := { pixels := 1000, forest := 1000, ui_elements := [0] },
    screenSize := (1080, 2400) }

/-! ### Helper lemmas -/

/-- `==` is symmetric for any lawful `BEq`. -/
theorem beqComm {α : Type} [BEq α] [LawfulBEq α] (u v : α) : (u == v) = (v == u) := by
  by_cases h : u = v
  · subst h; rfl
  · have h1 : (u == v) = false := beq_eq_false_iff_ne.mpr h
    have h2 : (v == u) = false := beq_eq_false_iff_ne.mpr (Ne.symm h)
    rw [h1, h2]

/-- The optional case-insensitive comparison is symmetric. -/
theorem optLowerEq_comm (u v : Option String) : optLowerEq u v = optLowerEq v u := by
  cases u <;> cases v
  · rfl
  · exact beqComm _ _
  · exact beqComm _ _
  · exact beqComm _ _

/-- The comparison of two identical optionals under the case-insensitive
rule is `true`. -/
theorem optLowerEq_self (u : Option String) : optLowerEq u u = true := by
  cases u <;> simp [optLowerEq]

/-- `decide` of a decidable equation is symmetric in its sides. -/
theorem decideComm {α : Type} [DecidableEq α] (u v : α) :
    decide (u = v) = decide (v = u) := by
  by_cases h : u = v
  · subst h; rfl
  · simp [h, Ne.symm h]

/-- `_compare_actions` is symmetric, including in whether it raises. -/
theorem compare_actions_symm (a b : JSONAction) :
    compare_actions a b = compare_actions b a := by
  simp only [compare_actions]
  rw [optLowerEq_comm a.app_name b.app_name, optLowerEq_comm a.text b.text,
      decideComm a.action_type b.action_type, decideComm a.index b.index,
      decideComm a.x b.x, decideComm a.y b.y,
      decideComm a.direction b.direction, decideComm a.goal_status b.goal_status]

/-- Comparing any action with itself reaches the `a.orientation` conjunct
and raises `AttributeError`. -/
theorem compare_actions_self (a : JSONAction) :
    compare_actions a a = Except.error orientationError := by
  simp [compare_actions, optLowerEq_self]

set_option maxHeartbeats 4000000 in
/-- Round trip at the structural level: reconstructing from the serialized
non-null fields recovers the action exactly. -/
theorem deserialize_non_null (a : JSONAction) : deserialize (non_null a) = some a := by
  obtain ⟨t₁, idx, px, py, tx, dir, gs, ap, an⟩ := a
  cases t₁ <;> rcases idx with _ | (s | n) <;> cases px <;> cases py <;> cases tx <;>
    cases dir <;> cases gs <;> cases ap <;> cases an <;> rfl

/-- `stabilizeLoop` agrees with its fuel-indexed twin whenever
`fuel` sleeps of length `sleep_duration` cover the remaining budget. -/
theorem stabilizeLoop_eq_fuel (d : Device ε) (th : Nat) (s t : ℚ) (hs : 0 < s) :
    ∀ (fuel stable : Nat) (e : ℚ) (prior current : State ε) (cnt : Nat),
      t ≤ e + fuel * s →
      stabilizeLoop d th s t hs stable e prior current cnt =
        stabilizeLoopF d th s t fuel stable e prior current cnt := by
  intro fuel
  induction fuel with
  | zero =>
      intro stable e prior current cnt hf
      have hte : t ≤ e := by simpa using hf
      rw [stabilizeLoop]
      rw [dif_neg]
      · rfl
      · intro hc
        exact absurd hc.2 (not_lt.mpr hte)
  | succ n ih =>
      intro stable e prior current cnt hf
      have hf' : t ≤ (e + s) + n * s := by
        push_cast at hf ⊢
        linarith
      rw [stabilizeLoop]
      show _ = stabilizeLoopF d th s t (n + 1) stable e prior current cnt
      rw [stabilizeLoopF]
      by_cases hc : stable < th ∧ e < t
      · rw [dif_pos hc, if_pos hc]
        by_cases he : prior.ui_elements = current.ui_elements
        · rw [if_pos he, if_pos he]
          by_cases hth : stable + 1 = th
          · rw [if_pos hth, if_pos hth]
          · rw [if_neg hth, if_neg hth]
            exact ih (stable + 1) (e + s) prior (d.stepObs cnt) (cnt + 1) hf'
        · rw [if_neg he, if_neg he]
          exact ih 0 (e + s) current (d.stepObs cnt) (cnt + 1) hf'
      · rw [dif_neg hc, if_neg hc]

/-- `get_stable_state` agrees with its fuel-indexed twin whenever the fuel
covers the timeout (the loop always starts with `elapsed_time = 0`). -/
theorem get_stable_state_eq_fuel (d : Device ε) (th : Nat) (s t : ℚ)
    (hs : 0 < s) (fuel : Nat) (env : EnvState ε) (hf : t ≤ fuel * s) :
    get_stable_state d th s t hs env = get_stable_stateF d th s t fuel env := by
  have hf0 : t ≤ 0 + fuel * s := by simpa using hf
  cases hp : env.prior_state with
  | none =>
      simp only [get_stable_state, get_stable_stateF, hp]
      rw [stabilizeLoop_eq_fuel d th s t hs fuel 0 0 _ _ _ hf0]
  | some p =>
      simp only [get_stable_state, get_stable_stateF, hp]
      rw [stabilizeLoop_eq_fuel d th s t hs fuel 0 0 _ _ _ hf0]

/-- Each loop iteration issues at most one no-op step, so the final step
counter exceeds the initial one by at most the fuel. -/
theorem stabilizeLoopF_cnt_le (d : Device ε) (th : Nat) (s t : ℚ) :
    ∀ (fuel stable : Nat) (e : ℚ) (prior current : State ε) (cnt : Nat),
      (stabilizeLoopF d th s t fuel stable e prior current cnt).2.2 ≤ cnt + fuel := by
  intro fuel
  induction fuel with
  | zero =>
      intro stable e prior current cnt
      simp [stabilizeLoopF]
  | succ n ih =>
      intro stable e prior current cnt
      rw [stabilizeLoopF]
      by_cases hc : stable < th ∧ e < t
      · rw [if_pos hc]
        by_cases he : prior.ui_elements = current.ui_elements
        · rw [if_pos he]
          by_cases hth : stable + 1 = th
          · rw [if_pos hth]
            exact Nat.le_add_right cnt (n + 1)
          · rw [if_neg hth]
            have := ih (stable + 1) (e + s) prior (d.stepObs cnt) (cnt + 1)
            omega
        · rw [if_neg he]
          have := ih 0 (e + s) current (d.stepObs cnt) (cnt + 1)
          omega
      · rw [if_neg hc]
        exact Nat.le_add_right cnt (n + 1)

/-- The loop always returns the most recently acquired observation: if the
incoming `current` is the observation at index `cnt - 1`, so is the result
relative to the final counter. -/
theorem stabilizeLoopF_last (d : Device ε) (th : Nat) (s t : ℚ) :
    ∀ (fuel stable : Nat) (e : ℚ) (prior current : State ε) (cnt : Nat),
      1 ≤ cnt → current = d.stepObs (cnt - 1) →
      (stabilizeLoopF d th s t fuel stable e prior current cnt).1
          = d.stepObs ((stabilizeLoopF d th s t fuel stable e prior current cnt).2.2 - 1)
        ∧ 1 ≤ (stabilizeLoopF d th s t fuel stable e prior current cnt).2.2 := by
  intro fuel
  induction fuel with
  | zero =>
      intro stable e prior current cnt hcnt hcur
      exact ⟨hcur, hcnt⟩
  | succ n ih =>
      intro stable e prior current cnt hcnt hcur
      rw [stabilizeLoopF]
      by_cases hc : stable < th ∧ e < t
      · rw [if_pos hc]
        by_cases he : prior.ui_elements = current.ui_elements
        · rw [if_pos he]
          by_cases hth : stable + 1 = th
          · rw [if_pos hth]
            exact ⟨hcur, hcnt⟩
          · rw [if_neg hth]
            exact ih (stable + 1) (e + s) prior (d.stepObs cnt) (cnt + 1)
              (by omega) (by simp)
        · rw [if_neg he]
          exact ih 0 (e + s) current (d.stepObs cnt) (cnt + 1)
            (by omega) (by simp)
      · rw [if_neg hc]
        exact ⟨hcur, hcnt⟩

/-! ### Claim theorems -/

/-- C3 (counterexample): two actions that differ only in
`activity_nickname` are, per the claim, unequal (`equals` returns false);
in the code every compared field matches, so `_compare_actions` reaches
the undeclared `orientation` attribute and raises `AttributeError` instead
of returning `False`. -/
theorem C3_counterexample :
    aDrawer.activity_nickname ≠ aQuick.activity_nickname
    ∧ compare_actions aDrawer aQuick ≠ Except.ok false
    ∧ compare_actions aDrawer aQuick = Except.error orientationError := by
  have h : compare_actions aDrawer aQuick = Except.error orientationError := by rfl
  refine ⟨by decide, ?_, h⟩
  rw [h]
  simp

/-- C3 (amended): `equals` never returns `True`; it returns `False` exactly
when some compared field mismatches under the stated rules (`app_name` and
`text` case-insensitively when both non-null, null-equality otherwise, the
other non-metadata fields by exact value), `activity_nickname` is ignored
entirely, and when every compared field matches the comparison raises
`AttributeError` because `_compare_actions` reads the undeclared
`orientation` attribute. -/
theorem C3_amended (a b : JSONAction) (an₁ an₂ : Option String) :
    compare_actions a b ≠ Except.ok true
    ∧ (compare_actions a b = Except.ok false ↔ ¬ fieldsMatch a b)
    ∧ compare_actions { a with activity_nickname := an₁ }
        { b with activity_nickname := an₂ } = compare_actions a b := by
  have hcond : (optLowerEq a.app_name b.app_name && optLowerEq a.text b.text
      && decide (a.action_type = b.action_type) && decide (a.index = b.index)
      && decide (a.x = b.x) && decide (a.y = b.y)
      && decide (a.direction = b.direction)
      && decide (a.goal_status = b.goal_status)) = true
      ↔ fieldsMatch a b := by
    simp [fieldsMatch, Bool.and_eq_true, and_assoc]
  refine ⟨?_, ?_, rfl⟩
  · simp only [compare_actions]
    split
    · simp
    · simp
  · simp only [compare_actions]
    split
    next h =>
      have hm : fieldsMatch a b := hcond.mp h
      simp [hm]
    next h =>
      have hm : ¬ fieldsMatch a b := fun hf => h (hcond.mpr hf)
      simp [hm]

/-- C4: the code contradicts the claim's reflexivity/totality: equality is
symmetric (including in whether it raises), but comparing any action with
itself always raises `AttributeError` via the undeclared `orientation`
attribute, so `equals(a, a)` never returns `True` and the function is not
defined (exception-free) on every pair. -/
theorem C4_symmetry_and_reflexivity_failure :
    (∀ a b : JSONAction, compare_actions a b = compare_actions b a)
    ∧ (∀ a : JSONAction, compare_actions a a = Except.error orientationError) :=
  ⟨compare_actions_symm, compare_actions_self⟩

/-- C5: the structural round trip is exact — deserializing the serialized
non-null fields reconstructs the action field-for-field — but the claimed
semantic-equality comparison of the round-tripped action with the original
raises `AttributeError` (all compared fields match, so `_compare_actions`
reaches the undeclared `orientation` attribute) instead of returning
`True`. -/
theorem C5_round_trip (a : JSONAction) :
    deserialize (non_null a) = some a
    ∧ compare_actions a ((deserialize (non_null a)).getD a)
        = Except.error orientationError := by
  refine ⟨deserialize_non_null a, ?_⟩
  rw [deserialize_non_null a]
  exact compare_actions_self a

/-- C6: on `app_name='Chrome'` versus `app_name='chrome'` every compared
field matches (case-insensitively), so instead of returning `True` the
comparison raises `AttributeError`; versus `app_name=None` it correctly
returns `False`; the `text` field behaves the same way. -/
theorem C6_case_rule_evaluation :
    compare_actions chromeUpper chromeLower = Except.error orientationError
    ∧ compare_actions chromeUpper chromeNone = Except.ok false
    ∧ compare_actions textUpper textLower = Except.error orientationError
    ∧ compare_actions textUpper textNone = Except.ok false :=
  ⟨rfl, rfl, rfl, rfl⟩

/-- C7 (counterexample): constructing an action whose kind is outside the
`_ACTION_TYPES` enumeration succeeds — `JSONAction(**kwargs)` performs no
membership check — refuting the claim that such a construction fails; the
same call also accepts both an element index and pixel coordinates. -/
theorem C7_counterexample :
    ¬ ("fly" ∈ ACTION_TYPES)
    ∧ deserialize [("action_type", JVal.jstr "fly"), ("index", JVal.jint 5),
        ("x", JVal.jint 1), ("y", JVal.jint 2)]
      = some { action_type := some "fly", index := some (Sum.inr 5),
               x := some 1, y := some 2 } :=
  ⟨by decide, rfl⟩

/-- C7 (amended): construction performs no validation at all — any
`action_type` string is accepted (the `_ACTION_TYPES` enumeration is
declared but never consulted by the dataclass), and malformed field
combinations such as an index together with coordinates are accepted
without error. -/
theorem C7_no_validation_on_construction :
    (∀ k : String, deserialize [("action_type", JVal.jstr k)]
        = some { action_type := some k })
    ∧ ¬ ("wave_wand" ∈ ACTION_TYPES)
    ∧ deserialize [("action_type", JVal.jstr "wave_wand"), ("index", JVal.jint 5),
        ("x", JVal.jint 1), ("y", JVal.jint 2)]
      = some { action_type := some "wave_wand", index := some (Sum.inr 5),
               x := some 1, y := some 2 } :=
  ⟨fun _ => rfl, by decide, rfl⟩

/-- C1 (counterexample): on a session holding a non-empty cache and a
stored baseline, `reset(go_home=True)` clears the cache but leaves
`_prior_state` untouched (the claim says it is discarded), and the next
stabilization call reuses the pre-reset baseline: against a device whose
screens all match the stale baseline it stops after only 3 step
acquisitions, never performing a fresh baseline acquisition. -/
theorem C1_counterexample :
    (reset devConst true envWithBaseline).2.1.prior_state = some S0
    ∧ (reset devConst true envWithBaseline).2.1.prior_state ≠ none
    ∧ (reset devConst true envWithBaseline).2.1.interaction_cache = some ""
    ∧ (get_stable_state devConst 3 (1/2 : ℚ) 6 (by norm_num)
        (reset devConst true envWithBaseline).2.1).2.step_count = 3 := by
  refine ⟨rfl, by simp [reset, envWithBaseline], rfl, ?_⟩
  rw [get_stable_state_eq_fuel devConst 3 (1/2 : ℚ) 6 (by norm_num) 12
      (reset devConst true envWithBaseline).2.1 (by norm_num)]
  with_unfolding_all decide

/-- C1 (amended): `reset(go_home)` clears the interaction cache to the
empty string, optionally presses home, issues no no-op step, and returns
the device's reset observation — but it does NOT discard the stabilization
baseline: `_prior_state` survives the reset unchanged, so a subsequent
stabilization call with a stored pre-reset baseline reuses it instead of
acquiring a fresh one. -/
theorem C1_reset_keeps_baseline (ε : Type) (d : Device ε) (go_home : Bool)
    (env : EnvState ε) :
    (reset d go_home env).2.1.interaction_cache = some ""
    ∧ (reset d go_home env).2.1.prior_state = env.prior_state
    ∧ (reset d go_home env).2.1.step_count = env.step_count
    ∧ (reset d go_home env).1 = d.resetObs
    ∧ (reset d go_home env).2.2 = (if go_home then [Effect.pressHome] else []) :=
  ⟨rfl, rfl, rfl, rfl, rfl⟩

/-- C2 (counterexample): on the claim's trace (unstable, unstable, A, A, A,
then B) with threshold 3 and no stored baseline, the engine does NOT stop
at the third consecutive `A`: the first `A` becomes the baseline, the two
further `A` samples give only 2 successful checks, so the loop continues,
acquires the `B` sample (index 5) and beyond (9 acquisitions in total),
and finally returns a snapshot with elements `B = [200]`, not `A = [100]`. -/
theorem C2_counterexample :
    (get_stable_state devThreeA 3 (1/2 : ℚ) 6 (by norm_num)
        (initialEnv Nat)).1.ui_elements = [200]
    ∧ (get_stable_state devThreeA 3 (1/2 : ℚ) 6 (by norm_num)
        (initialEnv Nat)).2.step_count = 9 := by
  rw [get_stable_state_eq_fuel devThreeA 3 (1/2 : ℚ) 6 (by norm_num) 12
      (initialEnv Nat) (by norm_num)]
  with_unfolding_all decide

/-- C2 (amended): with `stability_threshold = 3` the engine stops only
after 3 successful checks against the retained baseline, i.e. a run of 4
identical-element samples.  On the trace unstable, unstable, A, A, A, A, B
it stops at the fourth `A` (returning elements `A = [100]`) before the
timeout, with 6 acquisitions in total, so the `B` sample at index 6 is
never acquired. -/
theorem C2_stops_at_fourth_A :
    (get_stable_state devFourA 3 (1/2 : ℚ) 6 (by norm_num)
        (initialEnv Nat)).1.ui_elements = [100]
    ∧ (get_stable_state devFourA 3 (1/2 : ℚ) 6 (by norm_num)
        (initialEnv Nat)).2.step_count = 6
    ∧ (devFourA.stepObs 6).ui_elements = [200] := by
  rw [get_stable_state_eq_fuel devFourA 3 (1/2 : ℚ) 6 (by norm_num) 12
      (initialEnv Nat) (by norm_num)]
  with_unfolding_all decide

/-- C8: for any positive poll interval the polling loop terminates; the
number of sleep/acquire iterations (measured by the step-counter increase)
is at most `ceil(timeout / poll_interval)`, hence the accumulated sleep
time is at most `timeout + poll_interval`, and the returned snapshot is
always the last-acquired one. -/
theorem C8_bounded_termination (ε : Type) [DecidableEq ε] (d : Device ε)
    (th : Nat) (s t : ℚ) (prior current : State ε) (cnt : Nat)
    (hs : 0 < s) (ht : 0 ≤ t) (hcnt : 1 ≤ cnt)
    (hcur : current = d.stepObs (cnt - 1)) :
    (stabilizeLoop d th s t hs 0 0 prior current cnt).2.2 - cnt ≤ (⌈t / s⌉).toNat
    ∧ (((stabilizeLoop d th s t hs 0 0 prior current cnt).2.2 - cnt : Nat) : ℚ) * s
        ≤ t + s
    ∧ (stabilizeLoop d th s t hs 0 0 prior current cnt).1
        = d.stepObs ((stabilizeLoop d th s t hs 0 0 prior current cnt).2.2 - 1) := by
  have hsne : s ≠ 0 := ne_of_gt hs
  have hdiv : (0 : ℚ) ≤ t / s := div_nonneg ht (le_of_lt hs)
  have hc0 : (0 : ℤ) ≤ ⌈t / s⌉ := Int.ceil_nonneg hdiv
  have hNq : (((⌈t / s⌉).toNat : ℤ) : ℚ) = ((⌈t / s⌉ : ℤ) : ℚ) := by
    rw [Int.toNat_of_nonneg hc0]
  have hceil : t / s ≤ (((⌈t / s⌉).toNat : ℤ) : ℚ) := by
    rw [hNq]
    exact Int.le_ceil _
  have hfN : t ≤ ((⌈t / s⌉).toNat : ℚ) * s := by
    have h1 := mul_le_mul_of_nonneg_right hceil (le_of_lt hs)
    rw [div_mul_cancel₀ t hsne] at h1
    exact_mod_cast h1
  have heq := stabilizeLoop_eq_fuel d th s t hs (⌈t / s⌉).toNat 0 0 prior current cnt
    (by simpa using hfN)
  rw [heq]
  have hb := stabilizeLoopF_cnt_le d th s t (⌈t / s⌉).toNat 0 0 prior current cnt
  refine ⟨by omega, ?_,
    (stabilizeLoopF_last d th s t (⌈t / s⌉).toNat 0 0 prior current cnt hcnt hcur).1⟩
  have hle : (stabilizeLoopF d th s t (⌈t / s⌉).toNat 0 0 prior current cnt).2.2 - cnt
      ≤ (⌈t / s⌉).toNat := by omega
  have hcast :
      (((stabilizeLoopF d th s t (⌈t / s⌉).toNat 0 0 prior current cnt).2.2 - cnt : Nat) : ℚ)
        ≤ ((⌈t / s⌉).toNat : ℚ) := by exact_mod_cast hle
  have hNs : ((⌈t / s⌉).toNat : ℚ) * s ≤ t + s := by
    have hlt : ((⌈t / s⌉ : ℤ) : ℚ) < t / s + 1 := Int.ceil_lt_add_one _
    have h2 : ((⌈t / s⌉).toNat : ℚ) ≤ t / s + 1 := by
      calc ((⌈t / s⌉).toNat : ℚ) = (((⌈t / s⌉).toNat : ℤ) : ℚ) := by push_cast; ring
        _ = ((⌈t / s⌉ : ℤ) : ℚ) := hNq
        _ ≤ t / s + 1 := le_of_lt hlt
    calc ((⌈t / s⌉).toNat : ℚ) * s ≤ (t / s + 1) * s :=
          mul_le_mul_of_nonneg_right h2 (le_of_lt hs)
      _ = t + s := by field_simp
  calc (((stabilizeLoopF d th s t (⌈t / s⌉).toNat 0 0 prior current cnt).2.2 - cnt : Nat) : ℚ) * s
      ≤ ((⌈t / s⌉).toNat : ℚ) * s := mul_le_mul_of_nonneg_right hcast (le_of_lt hs)
    _ ≤ t + s := hNs

/-- C8 (witness): the bounded-termination theorem instantiated at the
default configuration (threshold 3, sleep 0.5, timeout 6.0) on the
`devThreeA` mock device, with all hypotheses discharged concretely. -/
theorem C8_bounded_termination_witness :
    (0 : ℚ) < 1/2 ∧ (0 : ℚ) ≤ 6 ∧ 1 ≤ 2
    ∧ devThreeA.stepObs 1 = devThreeA.stepObs (2 - 1)
    ∧ ((stabilizeLoop devThreeA 3 (1/2 : ℚ) 6 (by norm_num) 0 0
          (devThreeA.stepObs 0) (devThreeA.stepObs 1) 2).2.2 - 2
            ≤ (⌈(6 : ℚ) / (1/2)⌉).toNat
        ∧ (((stabilizeLoop devThreeA 3 (1/2 : ℚ) 6 (by norm_num) 0 0
              (devThreeA.stepObs 0) (devThreeA.stepObs 1) 2).2.2 - 2 : Nat) : ℚ) * (1/2)
            ≤ 6 + 1/2
        ∧ (stabilizeLoop devThreeA 3 (1/2 : ℚ) 6 (by norm_num) 0 0
              (devThreeA.stepObs 0) (devThreeA.stepObs 1) 2).1
            = devThreeA.stepObs
                ((stabilizeLoop devThreeA 3 (1/2 : ℚ) 6 (by norm_num) 0 0
                  (devThreeA.stepObs 0) (devThreeA.stepObs 1) 2).2.2 - 1)) :=
  ⟨by norm_num, by norm_num, by norm_num, rfl,
    C8_bounded_termination Nat devThreeA 3 (1/2) 6
      (devThreeA.stepObs 0) (devThreeA.stepObs 1) 2
      (by norm_num) (by norm_num) (by norm_num) rfl⟩

/-- C9: an `answer` action with text "42" overwrites the interaction cache
with exactly "42" and emits exactly one `display_message` side effect; with
empty text it sets the cache to the empty string and emits no side effect;
in both cases the session's step counter and baseline are untouched (no
snapshot is fetched) and no actuation effect is emitted. -/
theorem C9_answer_action (ε : Type) (d : Device ε) (env : EnvState ε) :
    execute_action d { action_type := some ANSWER, text := some "42" } env
      = ({ env with interaction_cache := some "42" },
         [Effect.displayMessage "42" "Agent answered:"])
    ∧ execute_action d { action_type := some ANSWER, text := some "" } env
      = ({ env with interaction_cache := some "" }, []) :=
  ⟨rfl, rfl⟩

/-- C10: an `answer` action whose text is `None` writes `None` into the
interaction cache — the cache is no longer a string value — and emits no
display side effect (and touches nothing else). -/
theorem C10_answer_none (ε : Type) (d : Device ε) (env : EnvState ε) :
    execute_action d { action_type := some ANSWER } env
      = ({ env with interaction_cache := none }, []) :=
  rfl

end AndroidWorldEnv
